/-
Verification development for the TOBM per-agent decision-and-kinematics
engine (sim_models/generic/{dynamical_object,driver,pedestrian}.py).

The Python code is shallowly embedded over ℚ.  Machine floats become exact
rationals; the trigonometric functions `math.cos`/`math.sin` (degrees are
converted by the source before the call, so we work directly in degrees)
become explicit function parameters `cosd sind : ℚ → ℚ`; the external
geometry library's centroid computation becomes a parameter
`centroidOf : List (ℚ × ℚ) → ℚ × ℚ`; the seeded random source's `choice`
operation at its current internal state becomes a function parameter.
The class attribute `_RELEVANT_LOWEST_SPEED` is defined in the external
`pyauto` package, so it is kept as a parameter `eps : ℚ` throughout.

Fields `has_speed`, `has_acceleration`, `has_yaw_rate` are initialized to
`0` by `Dynamical_Object.__init__` and every write to them stores a number,
so the defensive `is not None` guards of the source always pass for them;
they are embedded as plain `ℚ`.  `has_yaw` originates from the ontology and
the source meaningfully branches on its absence, so it is `Option ℚ`.
-/
import Mathlib

/-- Python's `%` operator on reals: `a - b * ⌊a / b⌋`.  For `b > 0` the
result lies in `[0, b)` (Python's remainder takes the divisor's sign). -/
def pymod (a b : ℚ) : ℚ := a - b * ⌊a / b⌋

/-- Kinematic state of a dynamical object, mirroring the fields written by
`Dynamical_Object`: `has_speed`, `has_acceleration`, `has_yaw_rate`,
`has_yaw`, the footprint polygon (vertex list of `hasGeometry`) and
`has_length`. -/
structure DynState where
  speed : ℚ
  accel : ℚ
  yawRate : ℚ
  yaw : Option ℚ
  geo : List (ℚ × ℚ)
  length : ℚ
deriving DecidableEq, Repr

/-- Embedding of `Dynamical_Object.update_speed` (dynamical_object.py,
lines 238-250): `self.has_speed = max(0, prev.has_speed +
self.has_acceleration * delta_t)`, then, if the new speed is below
`_RELEVANT_LOWEST_SPEED`, zero `has_acceleration` and `has_yaw_rate`. -/
def update_speed (eps : ℚ) (prevSpeed : ℚ) (st : DynState) (dt : ℚ) : DynState :=
  let st1 := { st with speed := max 0 (prevSpeed + st.accel * dt) }
  if st1.speed < eps then { st1 with accel := 0, yawRate := 0 } else st1

/-- Embedding of `Dynamical_Object.update_yaw` (dynamical_object.py,
lines 225-236): if the previous yaw is defined, set
`self.has_yaw = (prev.has_yaw + self.has_yaw_rate * delta_t) % 360` when
`self.has_speed > _RELEVANT_LOWEST_SPEED`, else copy the previous yaw. -/
def update_yaw (eps : ℚ) (prevYaw : Option ℚ) (st : DynState) (dt : ℚ) : DynState :=
  match prevYaw with
  | none => st
  | some py =>
    if st.speed > eps then { st with yaw := some (pymod (py + st.yawRate * dt) 360) }
    else { st with yaw := some py }

theorem pymod_nonneg (a : ℚ) {b : ℚ} (hb : 0 < b) : 0 ≤ pymod a b := by
  unfold pymod
  have h : (⌊a / b⌋ : ℚ) ≤ a / b := Int.floor_le _
  have := mul_le_mul_of_nonneg_left h (le_of_lt hb)
  rw [mul_div_cancel₀ _ (ne_of_gt hb)] at this
  linarith

theorem pymod_lt (a : ℚ) {b : ℚ} (hb : 0 < b) : pymod a b < b := by
  unfold pymod
  have h : a / b < ⌊a / b⌋ + 1 := Int.lt_floor_add_one _
  have := mul_lt_mul_of_pos_left h hb
  rw [mul_div_cancel₀ _ (ne_of_gt hb)] at this
  linarith [this]

/-- C1: `update_speed` writes the speed `max(0, prevSpeed + accel·Δt)` into
the next-tick agent, which is therefore never negative; and the resulting
acceleration and yaw rate are `0` exactly when that new speed is below the
relevant-lowest-speed epsilon (otherwise they are left untouched). -/
theorem update_speed_spec (eps prevSpeed : ℚ) (st : DynState) (dt : ℚ) :
    (update_speed eps prevSpeed st dt).speed = max 0 (prevSpeed + st.accel * dt) ∧
    0 ≤ (update_speed eps prevSpeed st dt).speed ∧
    (update_speed eps prevSpeed st dt).accel =
      (if (update_speed eps prevSpeed st dt).speed < eps then 0 else st.accel) ∧
    (update_speed eps prevSpeed st dt).yawRate =
      (if (update_speed eps prevSpeed st dt).speed < eps then 0 else st.yawRate) := by
  unfold update_speed
  by_cases h : max 0 (prevSpeed + st.accel * dt) < eps <;>
    simp [h, le_max_left]

/-- C2: when the previous yaw is defined and in `[0, 360)`, `update_yaw`
sets the next-tick yaw to `(prevYaw + yawRate·Δt) mod 360` if the
already-updated next-tick speed exceeds the relevant-lowest-speed epsilon,
and to the previous yaw otherwise; in both cases the result stays in
`[0, 360)`. -/
theorem update_yaw_spec (eps py : ℚ) (st : DynState) (dt : ℚ)
    (h0 : 0 ≤ py) (h360 : py < 360) :
    (update_yaw eps (some py) st dt).yaw =
      some (if st.speed > eps then pymod (py + st.yawRate * dt) 360 else py) ∧
    ∀ y, (update_yaw eps (some py) st dt).yaw = some y → 0 ≤ y ∧ y < 360 := by
  unfold update_yaw
  by_cases h : st.speed > eps
  · refine ⟨by simp [h], ?_⟩
    intro y hy
    simp only [h, if_true] at hy
    simp only [Option.some.injEq] at hy
    subst hy
    exact ⟨pymod_nonneg _ (by norm_num), pymod_lt _ (by norm_num)⟩
  · refine ⟨by simp [h], ?_⟩
    intro y hy
    simp only [h, if_false] at hy
    simp only [Option.some.injEq] at hy
    subst hy
    exact ⟨h0, h360⟩

/-- C2 witness: a concrete yaw integration step wrapping around 360°. -/
theorem update_yaw_spec_witness :
    (update_yaw (1/100) (some 350) ⟨1, 0, 20, none, [], 0⟩ 1).yaw =
      some (if (1:ℚ) > 1/100 then pymod (350 + 20 * 1) 360 else 350) ∧
    ∀ y, (update_yaw (1/100) (some 350) ⟨1, 0, 20, none, [], 0⟩ 1).yaw = some y →
      0 ≤ y ∧ y < 360 :=
  update_yaw_spec (1/100) 350 ⟨1, 0, 20, none, [], 0⟩ 1 (by norm_num) (by norm_num)

/-- Rotation of a point `p` by an angle (given in degrees, applied through
the trigonometric function parameters) about a center `c`, as performed by
`shapely.affinity.rotate`. -/
def rotateAboutDeg (cosd sind : ℚ → ℚ) (ang : ℚ) (c p : ℚ × ℚ) : ℚ × ℚ :=
  (c.1 + cosd ang * (p.1 - c.1) - sind ang * (p.2 - c.2),
   c.2 + sind ang * (p.1 - c.1) + cosd ang * (p.2 - c.2))

/-- Selection of the pivot geometry `d_geo` in
`Dynamical_Object.update_position` (dynamical_object.py, lines 265-269):
the driven vehicle's footprint when the agent drives one
(`self.drives[0].get_geometry()`), the agent's own footprint otherwise. -/
def pivot_geo (ownGeo : List (ℚ × ℚ)) (drivenGeo : Option (List (ℚ × ℚ))) :
    List (ℚ × ℚ) :=
  match drivenGeo with
  | some g => g
  | none => ownGeo

/-- The pivot length fallback chain of `Dynamical_Object.update_position`
(dynamical_object.py, lines 271-275): `length = self.has_length`; when
that is falsy (unset lengths are `0` in this embedding, covering the
source's `None` and `0`) and a vehicle is driven, take the vehicle's
`has_length`; the source's final `if not length: length = 0` is the
identity here because unset lengths are already `0`. -/
def effective_pivot_length (ownLength : ℚ) (drivenGeo : Option (List (ℚ × ℚ)))
    (drivenLength : ℚ) : ℚ :=
  if ownLength = 0 ∧ drivenGeo ≠ none then drivenLength else ownLength

/-- Embedding of `Dynamical_Object.update_position` (dynamical_object.py,
lines 252-284): when the new yaw is defined, the own footprint `s_geo`
nonempty (`has_geometry()`) and the new speed above
`_RELEVANT_LOWEST_SPEED`, `s_geo` is rotated by `has_yaw - prev.has_yaw`
about a pivot derived from `d_geo` — the driven vehicle's footprint when
one is driven, else `s_geo` (`pivot_geo`): when `d_geo` is a `Polygon`
(the flag `dGeoIsPolygon` embeds the source's `isinstance` test), the
pivot sits `0.4 * length` (length fallback per `effective_pivot_length`)
in direction `yaw + 180` from `d_geo`'s centroid, otherwise it is
`d_geo`'s centroid itself (zero offset).  The rotated footprint is then
translated by `(cos(yaw)·speed·Δt, sin(yaw)·speed·Δt)`; on a failed guard
nothing happens.  (The source computes
`inv_yaw = math.radians(yaw + 180) % 360`; the `% 360` is the identity on
the radian values arising here and `cos`/`sin` are 360°-periodic, so the
direction is exactly `yaw + 180` degrees.) -/
def update_position (centroidOf : List (ℚ × ℚ) → ℚ × ℚ) (cosd sind : ℚ → ℚ)
    (eps : ℚ) (prevYaw : ℚ) (st : DynState) (drivenGeo : Option (List (ℚ × ℚ)))
    (drivenLength : ℚ) (dGeoIsPolygon : Bool) (dt : ℚ) : DynState :=
  match st.yaw with
  | none => st
  | some yaw =>
    if st.geo ≠ [] ∧ st.speed > eps then
      let xoff := cosd yaw * st.speed * dt
      let yoff := sind yaw * st.speed * dt
      let c := centroidOf (pivot_geo st.geo drivenGeo)
      let len := if dGeoIsPolygon = true
        then effective_pivot_length st.length drivenGeo drivenLength * (4/10)
        else 0
      let center := (c.1 + len * cosd (yaw + 180), c.2 + len * sind (yaw + 180))
      let g1 := st.geo.map (rotateAboutDeg cosd sind (yaw - prevYaw) center)
      { st with geo := g1.map (fun p => (p.1 + xoff, p.2 + yoff)) }
    else st

/-- Trigonometric stand-in used by the C9 counterexample and witness
(cosine in degrees, correct at the angles they touch). -/
def wcosC9 : ℚ → ℚ := fun x => if x = 90 then 0 else if x = 270 then 0 else 1

/-- Trigonometric stand-in used by the C9 counterexample and witness (sine
in degrees, correct at the angles they touch). -/
def wsinC9 : ℚ → ℚ := fun x => if x = 90 then 1 else if x = 270 then -1 else 0

/-- C9 counterexample, two parts.  First: an agent with positive new speed
`1/200` below the relevant-lowest-speed epsilon `1/100` is not moved by
`update_position` at all, while the claim mandates a displacement of
magnitude `speed·Δt = 1/200 > 0` applied to the (rotated) footprint.
Second: for a driver (own footprint `[(0,0)]` with centroid `(0,0)` and
unset own length, driving a vehicle with footprint `[(10,0)]`, centroid
`(10,0)`, length `5`) turning from yaw 0° to 90° at speed 1, the source
pivots about `(10,-2)` — `0.4·5` behind the *vehicle's* centroid — and
produces `[(8,-11)]`, not the value mandated by the claim's pivot `0.4 ×
length behind the footprint's centroid` (here `(0,0)`), which would be
`[(0,1)]`. -/
theorem update_position_claim_counterexample :
    (0 < (1/200 : ℚ) ∧
     (update_position (fun _ => ((0:ℚ), (0:ℚ))) (fun _ => 1) (fun _ => 0) (1/100) 0
        ⟨1/200, 0, 0, some 0, [(0, 0)], 0⟩ none 0 true 1).geo ≠
      (([((0:ℚ), (0:ℚ))].map (rotateAboutDeg (fun _ => 1) (fun _ => 0) (0 - 0)
          ((0:ℚ) + 0 * (4/10) * 1, (0:ℚ) + 0 * (4/10) * 0))).map
        (fun p => (p.1 + 1 * (1/200) * 1, p.2 + 0 * (1/200) * 1)))) ∧
    ((update_position (fun g => g.headD (0, 0)) wcosC9 wsinC9 (1/100) 0
        ⟨1, 0, 0, some 90, [(0, 0)], 0⟩ (some [(10, 0)]) 5 true 1).geo = [(8, -11)] ∧
     (([((0:ℚ), (0:ℚ))].map (rotateAboutDeg wcosC9 wsinC9 (90 - 0)
          ((0:ℚ) - 0 * (4/10) * wcosC9 90, (0:ℚ) - 0 * (4/10) * wsinC9 90))).map
        (fun p => (p.1 + wcosC9 90 * 1 * 1, p.2 + wsinC9 90 * 1 * 1))) = [(0, 1)] ∧
     ([((8:ℚ), (-11:ℚ))] : List (ℚ × ℚ)) ≠ [(0, 1)]) := by
  refine ⟨⟨by norm_num, ?_⟩, ?_, ?_, ?_⟩
  · simp only [update_position, rotateAboutDeg, List.map]
    norm_num [Prod.ext_iff]
  · simp [update_position, pivot_geo, effective_pivot_length, rotateAboutDeg,
      wcosC9, wsinC9]
    norm_num
  · simp only [rotateAboutDeg, wcosC9, wsinC9, List.map]
    norm_num [Prod.ext_iff]
  · simp only [ne_eq, List.cons.injEq, Prod.mk.injEq]
    norm_num

/-- C9 (amended: the new speed must exceed the relevant-lowest-speed
epsilon, not merely be positive, and the pivot is offset behind the
centroid of the driven vehicle's footprint when a vehicle is driven —
with the vehicle's length as fallback when the agent's own length is
unset — and behind the agent's own footprint's centroid otherwise): under
that guard, with yaw defined, a nonempty footprint and a polygonal pivot
geometry, `update_position` rotates the footprint by `yaw' − yaw` about
the pivot offset `0.4×length` behind that centroid along the heading and
then translates it by `(cos yaw'·speed'·Δt, sin yaw'·speed'·Δt)`, a
displacement whose squared magnitude is `(speed'·Δt)²` whenever
`cos² + sin² = 1` at the new yaw. -/
theorem update_position_spec (centroidOf : List (ℚ × ℚ) → ℚ × ℚ)
    (cosd sind : ℚ → ℚ) (eps prevYaw : ℚ) (st : DynState)
    (drivenGeo : Option (List (ℚ × ℚ))) (drivenLength : ℚ) (dt yaw : ℚ)
    (hy : st.yaw = some yaw) (hg : st.geo ≠ []) (hs : st.speed > eps)
    (hc : cosd (yaw + 180) = - cosd yaw) (hsn : sind (yaw + 180) = - sind yaw) :
    (update_position centroidOf cosd sind eps prevYaw st drivenGeo drivenLength
        true dt).geo =
      (st.geo.map (rotateAboutDeg cosd sind (yaw - prevYaw)
          ((centroidOf (pivot_geo st.geo drivenGeo)).1 -
             effective_pivot_length st.length drivenGeo drivenLength * (4/10) * cosd yaw,
           (centroidOf (pivot_geo st.geo drivenGeo)).2 -
             effective_pivot_length st.length drivenGeo drivenLength * (4/10) * sind yaw))).map
        (fun p => (p.1 + cosd yaw * st.speed * dt, p.2 + sind yaw * st.speed * dt)) ∧
    (cosd yaw ^ 2 + sind yaw ^ 2 = 1 →
      (cosd yaw * st.speed * dt) ^ 2 + (sind yaw * st.speed * dt) ^ 2 =
        (st.speed * dt) ^ 2) := by
  constructor
  · unfold update_position
    rw [hy]
    simp only [hg, hs, and_true, ne_eq, not_false_iff, if_true, eq_self_iff_true]
    have h1 : (centroidOf (pivot_geo st.geo drivenGeo)).1 +
        effective_pivot_length st.length drivenGeo drivenLength * (4/10) * cosd (yaw + 180)
        = (centroidOf (pivot_geo st.geo drivenGeo)).1 -
          effective_pivot_length st.length drivenGeo drivenLength * (4/10) * cosd yaw := by
      rw [hc]; ring
    have h2 : (centroidOf (pivot_geo st.geo drivenGeo)).2 +
        effective_pivot_length st.length drivenGeo drivenLength * (4/10) * sind (yaw + 180)
        = (centroidOf (pivot_geo st.geo drivenGeo)).2 -
          effective_pivot_length st.length drivenGeo drivenLength * (4/10) * sind yaw := by
      rw [hsn]; ring
    rw [h1, h2]
  · intro h1
    have : (cosd yaw * st.speed * dt) ^ 2 + (sind yaw * st.speed * dt) ^ 2 =
        (cosd yaw ^ 2 + sind yaw ^ 2) * (st.speed * dt) ^ 2 := by ring
    rw [this, h1, one_mul]

/-- State used by the C9 witness. -/
def wstC9 : DynState := ⟨1, 0, 0, some 90, [(0, 0), (2, 0), (2, 1), (0, 1)], 5⟩

/-- C9 witness: a concrete integration step at yaw 90°, speed 1, Δt 2, for
an agent driving a vehicle. -/
theorem update_position_spec_witness :
    (update_position (fun _ => (1, 1/2)) wcosC9 wsinC9 (1/100) 45 wstC9
        (some [(4, 4)]) 7 true 2).geo =
      (wstC9.geo.map (rotateAboutDeg wcosC9 wsinC9 (90 - 45)
          ((1:ℚ) - effective_pivot_length wstC9.length (some [(4, 4)]) 7 * (4/10) * wcosC9 90,
           (1/2:ℚ) - effective_pivot_length wstC9.length (some [(4, 4)]) 7 * (4/10) * wsinC9 90))).map
        (fun p => (p.1 + wcosC9 90 * wstC9.speed * 2, p.2 + wsinC9 90 * wstC9.speed * 2)) ∧
    (wcosC9 90 ^ 2 + wsinC9 90 ^ 2 = 1 →
      (wcosC9 90 * wstC9.speed * 2) ^ 2 + (wsinC9 90 * wstC9.speed * 2) ^ 2 =
        (wstC9.speed * 2) ^ 2) :=
  update_position_spec (fun _ => (1, 1/2)) wcosC9 wsinC9 (1/100) 45 wstC9
    (some [(4, 4)]) 7 2 90 rfl (by decide) (by norm_num [wstC9]) (by norm_num [wcosC9])
    (by norm_num [wsinC9])

/-- Embedding of `Dynamical_Object.get_optimized_attr` (dynamical_object.py,
lines 110-120).  `own` is the list `[x for y in self.is_a for x in
getattr(self, attr)]`, `anc` the list gathered from `INDIRECT_is_a`, `veh`
the list gathered from the driven vehicles' `INDIRECT_is_a`; each later
list is consulted only when all earlier ones are empty, the combining
function (`max` by default, `min` for deceleration) is folded over a
nonempty result, and everything else resolves to `0`. -/
def get_optimized_attr (optFn : ℚ → ℚ → ℚ) (hasAttr : Bool) (own anc veh : List ℚ) : ℚ :=
  if hasAttr then
    match (if own ≠ [] then own else if anc ≠ [] then anc else veh) with
    | [] => 0
    | a :: rest => rest.foldl optFn a
  else 0

/-- Embedding of `Dynamical_Object.get_maximum_speed` (line 122-123). -/
def get_maximum_speed (hasAttr : Bool) (own anc veh : List ℚ) : ℚ :=
  get_optimized_attr max hasAttr own anc veh

/-- Embedding of `Dynamical_Object.get_maximum_acceleration` (lines 125-126). -/
def get_maximum_acceleration (hasAttr : Bool) (own anc veh : List ℚ) : ℚ :=
  get_optimized_attr max hasAttr own anc veh

/-- Embedding of `Dynamical_Object.get_maximum_deceleration` (lines
128-129): resolved with `min` instead of `max`. -/
def get_maximum_deceleration (hasAttr : Bool) (own anc veh : List ℚ) : ℚ :=
  get_optimized_attr min hasAttr own anc veh

/-- Embedding of `Dynamical_Object.has_reached_maximum_speed` (lines
134-136): `max_speed is not None and self.has_speed > max_speed`; the
resolved maximum speed is never `None` (`get_optimized_attr` returns `0`
when unresolved), so this is exactly the strict comparison. -/
def has_reached_maximum_speed (maxSpeed speed : ℚ) : Bool := speed > maxSpeed

/-- Embedding of `Dynamical_Object._get_new_acceleration`
(dynamical_object.py, lines 172-205) for a caller-supplied distance (the
path taken from `simulate`, which always passes the distance returned by
`get_target`): a falsy distance is replaced by `0.001`; with no target
speed the command is `-speed²/distance`; otherwise `(Δv)²/distance`,
clamped below by the resolved maximum deceleration when `Δv < 0` and above
by the resolved maximum acceleration when still positive; finally a
positive command is zeroed when `has_reached_maximum_speed` holds (the
source's `is not None` guards on the resolved bounds always pass). -/
def get_new_acceleration (maxDecel maxAccel maxSpeed speed : ℚ)
    (targetSpeed : Option ℚ) (distance : ℚ) : ℚ :=
  let d := if distance = 0 then 1/1000 else distance
  let ac :=
    match targetSpeed with
    | none => - speed ^ 2 / d
    | some ts =>
      let a0 := (ts - speed) ^ 2 / d
      let a1 := if ts - speed < 0 then max (-a0) maxDecel else a0
      if a1 > 0 then min a1 maxAccel else a1
  if ac > 0 ∧ has_reached_maximum_speed maxSpeed speed then 0 else ac

/-- C4 counterexample: with resolved bounds `maxDecel = -1`, `maxAccel =
1`, `maxSpeed = 5`, an agent at speed `5` (exactly at its maximum) with
target speed `10` over distance `100` receives the positive command `1/4`:
the command stays positive although the speed is at the maximum, because
the source zeroes it only for speeds strictly above the maximum, so the
claim's "at or above" is false at this input. -/
theorem get_new_acceleration_at_max_counterexample :
    get_new_acceleration (-1) 1 5 5 (some 10) 100 = 1/4 ∧
    0 < (1/4 : ℚ) ∧ (1/4 : ℚ) ≠ 0 := by
  refine ⟨?_, by norm_num, by norm_num⟩
  norm_num [get_new_acceleration, has_reached_maximum_speed]

/-- Closed form of `get_new_acceleration` for a defined target speed under
the capability sign convention `maxDecel ≤ 0 ≤ maxAccel` and a nonnegative
distance; shared by the C4 and C10 theorems. -/
theorem get_new_acceleration_closed_form (maxDecel maxAccel maxSpeed speed ts distance : ℚ)
    (hmd : maxDecel ≤ 0) (hma : 0 ≤ maxAccel) (hdist : 0 ≤ distance) :
    get_new_acceleration maxDecel maxAccel maxSpeed speed (some ts) distance =
      if 0 < min maxAccel (max maxDecel
            (if ts - speed < 0
             then -((ts - speed) ^ 2 / (if distance = 0 then 1/1000 else distance))
             else (ts - speed) ^ 2 / (if distance = 0 then 1/1000 else distance))) ∧
          maxSpeed < speed
      then 0
      else min maxAccel (max maxDecel
            (if ts - speed < 0
             then -((ts - speed) ^ 2 / (if distance = 0 then 1/1000 else distance))
             else (ts - speed) ^ 2 / (if distance = 0 then 1/1000 else distance))) := by
  unfold get_new_acceleration has_reached_maximum_speed
  have hd0 : 0 < (if distance = 0 then (1:ℚ)/1000 else distance) := by
    split
    · norm_num
    · rcases lt_or_eq_of_le hdist with h | h
      · exact h
      · exact absurd h.symm (by assumption)
  set d := if distance = 0 then (1:ℚ)/1000 else distance with hdd
  have ha0 : 0 ≤ (ts - speed) ^ 2 / d := div_nonneg (sq_nonneg _) hd0.le
  simp only [decide_eq_true_eq, gt_iff_lt]
  by_cases hneg : ts - speed < 0
  · simp only [hneg, if_true]
    have hble : max maxDecel (-((ts - speed) ^ 2 / d)) ≤ 0 := max_le hmd (by linarith)
    have hmm : max (-((ts - speed) ^ 2 / d)) maxDecel =
        max maxDecel (-((ts - speed) ^ 2 / d)) := max_comm _ _
    have hmin : min maxAccel (max maxDecel (-((ts - speed) ^ 2 / d))) =
        max maxDecel (-((ts - speed) ^ 2 / d)) := min_eq_right (le_trans hble hma)
    rw [hmm, hmin]
    have h1 : ¬ (0 < max maxDecel (-((ts - speed) ^ 2 / d))) := not_lt.mpr hble
    simp [h1]
  · simp only [hneg, if_false]
    have hmx : max maxDecel ((ts - speed) ^ 2 / d) = (ts - speed) ^ 2 / d :=
      max_eq_right (le_trans hmd ha0)
    rw [hmx]
    by_cases hpos : 0 < (ts - speed) ^ 2 / d
    · simp only [hpos, if_true]
      rw [min_comm]
    · have hz : (ts - speed) ^ 2 / d = 0 := le_antisymm (not_lt.mp hpos) ha0
      rw [hz]
      have hmin0 : min maxAccel (0:ℚ) = 0 := min_eq_right hma
      rw [hmin0]
      simp

/-- C4 (amended: the positive command is forced to `0` only when the
agent's speed is strictly above its resolved maximum speed): for a defined
target speed, a nonnegative distance and sign-conventional capability
bounds (`maxDecel ≤ 0 ≤ maxAccel`), the command equals `sign(Δv)·(Δv)²/d`
(with `d = 0.001` when the distance is degenerate) clamped to
`[maxDecel, maxAccel]`, zeroed when positive while `maxSpeed < speed`. -/
theorem get_new_acceleration_spec (maxDecel maxAccel maxSpeed speed ts distance : ℚ)
    (hmd : maxDecel ≤ 0) (hma : 0 ≤ maxAccel) (hdist : 0 ≤ distance) :
    get_new_acceleration maxDecel maxAccel maxSpeed speed (some ts) distance =
      (let d := if distance = 0 then 1/1000 else distance
       let base := min maxAccel (max maxDecel
         (if ts - speed < 0 then -((ts - speed) ^ 2 / d) else (ts - speed) ^ 2 / d))
       if 0 < base ∧ maxSpeed < speed then 0 else base) :=
  get_new_acceleration_closed_form maxDecel maxAccel maxSpeed speed ts distance hmd hma hdist

/-- C4 witness: concrete clamped deceleration command. -/
theorem get_new_acceleration_spec_witness :
    get_new_acceleration (-2) 3 10 8 (some 1) 4 =
      (let d := if (4:ℚ) = 0 then 1/1000 else 4
       let base := min 3 (max (-2)
         (if (1:ℚ) - 8 < 0 then -(((1:ℚ) - 8) ^ 2 / d) else ((1:ℚ) - 8) ^ 2 / d))
       if 0 < base ∧ (10:ℚ) < 8 then 0 else base) :=
  get_new_acceleration_spec (-2) 3 10 8 1 4 (by norm_num) (by norm_num) (by norm_num)

theorem ite_nonneg_helper {c : Prop} [Decidable c] {a b : ℚ} (ha : 0 ≤ a) (hb : 0 ≤ b) :
    0 ≤ if c then a else b := by
  split
  · exact ha
  · exact hb

/-- C10: when no maximum-deceleration value is declared anywhere on the
agent's type ancestry or its driven vehicle's (all attribute lists empty),
capability resolution returns `0`; consequently, for any defined target
speed (with a nonnegative distance and a nonnegative resolved maximum
acceleration) the commanded acceleration is never negative, and whenever
the target speed is below the current speed it is exactly
`max(-ac, 0) = 0`, so the acceleration law never slows the agent down. -/
theorem no_decel_capability_never_brakes (hasAttr : Bool)
    (maxAccel maxSpeed speed ts distance : ℚ)
    (hma : 0 ≤ maxAccel) (hdist : 0 ≤ distance) :
    get_maximum_deceleration hasAttr [] [] [] = 0 ∧
    0 ≤ get_new_acceleration (get_maximum_deceleration hasAttr [] [] [])
        maxAccel maxSpeed speed (some ts) distance ∧
    (ts < speed →
      get_new_acceleration (get_maximum_deceleration hasAttr [] [] [])
        maxAccel maxSpeed speed (some ts) distance = 0) := by
  have hres : get_maximum_deceleration hasAttr [] [] [] = 0 := by
    cases hasAttr <;> rfl
  have h := get_new_acceleration_closed_form 0 maxAccel maxSpeed speed ts distance
    le_rfl hma hdist
  refine ⟨hres, ?_, ?_⟩
  · rw [hres, h]
    exact ite_nonneg_helper le_rfl (le_min hma (le_max_left _ _))
  · intro hts
    rw [hres, h]
    have hneg : ts - speed < 0 := by linarith
    have hd0 : 0 < (if distance = 0 then (1:ℚ)/1000 else distance) := by
      split
      · norm_num
      · rcases lt_or_eq_of_le hdist with hlt | heq
        · exact hlt
        · exact absurd heq.symm (by assumption)
    have ha0 : 0 ≤ (ts - speed) ^ 2 / (if distance = 0 then (1:ℚ)/1000 else distance) :=
      div_nonneg (sq_nonneg _) hd0.le
    simp only [hneg, if_true]
    have hmax : max (0:ℚ)
        (-((ts - speed) ^ 2 / (if distance = 0 then (1:ℚ)/1000 else distance))) = 0 :=
      max_eq_left (by linarith)
    rw [hmax]
    have hmin : min maxAccel (0:ℚ) = 0 := min_eq_right hma
    rw [hmin]
    simp

/-- C10 witness: concrete agent with no declared deceleration capability
and a target speed below its current speed. -/
theorem no_decel_capability_never_brakes_witness :
    get_maximum_deceleration true [] [] [] = 0 ∧
    0 ≤ get_new_acceleration (get_maximum_deceleration true [] [] []) 2 10 5 (some 1) 4 ∧
    ((1:ℚ) < 5 →
      get_new_acceleration (get_maximum_deceleration true [] [] []) 2 10 5 (some 1) 4 = 0) :=
  no_decel_capability_never_brakes true 2 10 5 1 4 (by norm_num) (by norm_num)

/-- A lane, identified by its stable textual identifier (`str(lane)`). -/
structure Lane where
  name : String
deriving DecidableEq, Repr

/-- Comparison of lanes by their textual identifier, as used by
`sorted(lanes, key=str)` in `Driver._get_next_lane` (driver.py, line 389). -/
def laneLe (a b : Lane) : Prop := a.name ≤ b.name

/-- Strict version of `laneLe`, used to show sorted lane lists with
pairwise-distinct names are unique. -/
def laneLt (a b : Lane) : Prop := a.name < b.name

instance : DecidableRel laneLe := fun a b => inferInstanceAs (Decidable (a.name ≤ b.name))

instance : IsTotal Lane laneLe := ⟨fun a b => le_total a.name b.name⟩

instance : IsTrans Lane laneLe := ⟨fun _ _ _ hab hbc => le_trans hab hbc⟩

instance : IsAntisymm Lane laneLt := ⟨fun _ _ h1 h2 => absurd h1 (lt_asymm h2)⟩

/-- Python's stable `sorted(lanes, key=str)`, embedded as a stable
insertion sort by the textual identifier. -/
def sortLanesByStr (ls : List Lane) : List Lane := List.insertionSort laneLe ls

/-- Embedding of `Driver._get_next_lane` (driver.py, lines 384-394): if no
next lane is retained and successors exist, draw with the seeded random
source's `choice` (a function of its current internal state) from the
successor lanes sorted by their textual identifier; if a next lane is
retained return it; else return `None`. -/
def get_next_lane (nextLane : Option Lane) (successors : List Lane)
    (choice : List Lane → Option Lane) : Option Lane :=
  if nextLane = none ∧ successors ≠ [] then choice (sortLanesByStr successors)
  else nextLane

/-- One conflict candidate `(obj, t_self, t_other, p_int)` produced by the
external Conflict Feed (`get_intersecting_objects`). -/
structure ConflictCand where
  other : ℕ
  tSelf : Option ℚ
  tOther : Option ℚ
  pInt : ℚ × ℚ
deriving DecidableEq, Repr

/-- The retained conflict of a `Driver`: the fields
`intersecting_object`, `tti_object`, `tti_self` and `p_int`, which the
source always sets together (`tti_self is None` is its emptiness test). -/
structure RetainedConflict where
  obj : ℕ
  ttiObject : ℚ
  ttiSelf : ℚ
  pInt : ℚ × ℚ
deriving DecidableEq, Repr

/-- Driver class constant `_MAX_DISTANCE_FOR_YIELDING_MODE` (driver.py,
line 61). -/
def DRIVER_MAX_DISTANCE_FOR_YIELDING_MODE : ℚ := 15

/-- Driver class constant `_MAX_PET_FOR_BRAKING_WHEN_INTERSECTING`
(driver.py, line 62). -/
def DRIVER_MAX_PET_FOR_BRAKING_WHEN_INTERSECTING : ℚ := 6

/-- The acceptance condition of `Driver.get_intersecting_object`
(driver.py, lines 295-299): both predicted times defined,
`t_self + t_other <= horizon`, `0 <= t_self - t_other <= maxPET`, strict
improvement over the currently retained conflict's total time (vacuous
when none is retained), and the predicted intersection point in front of
the agent's heading (`extras.utils.in_front_of`, an external geometric
test embedded as the parameter `inFront`). -/
def conflict_accept (horizon maxPET : ℚ) (inFront : ℚ × ℚ → Bool)
    (retained : Option RetainedConflict) (c : ConflictCand) : Bool :=
  match c.tSelf, c.tOther with
  | some tS, some tO =>
    decide (tS + tO ≤ horizon) && decide (0 ≤ tS - tO) && decide (tS - tO ≤ maxPET) &&
    (match retained with
     | none => true
     | some r => decide (tS + tO < r.ttiSelf + r.ttiObject)) &&
    inFront c.pInt
  | _, _ => false

/-- One iteration of the candidate loop of
`Driver.get_intersecting_object` (driver.py, lines 290-304): an accepted
candidate replaces the retained conflict, any other candidate leaves it. -/
def conflict_step (horizon maxPET : ℚ) (inFront : ℚ × ℚ → Bool)
    (retained : Option RetainedConflict) (c : ConflictCand) : Option RetainedConflict :=
  match c.tSelf, c.tOther with
  | some tS, some tO =>
    if conflict_accept horizon maxPET inFront retained c
    then some ⟨c.other, tO, tS, c.pInt⟩
    else retained
  | _, _ => retained

/-- Embedding of `Driver.get_intersecting_object` (driver.py, lines
288-305): the candidate loop runs only when no conflict is currently
retained and the driver drives a vehicle; it folds `conflict_step` over
the conflict feed. -/
def get_intersecting_object (horizon maxPET : ℚ) (inFront : ℚ × ℚ → Bool)
    (drivesNonempty : Bool) (retained : Option RetainedConflict)
    (cands : List ConflictCand) : Option RetainedConflict :=
  if retained = none ∧ drivesNonempty = true
  then cands.foldl (conflict_step horizon maxPET inFront) retained
  else retained

/-- C5: a conflict candidate is accepted as the yield target only if all
four conditions hold: total predicted time within the yielding horizon,
post-encroachment time `t_self - t_other` in `[0, maxPET]`, strict
improvement over any already-retained conflict's total time, and predicted
intersection point ahead of the agent's heading. -/
theorem conflict_accept_only_if (horizon maxPET : ℚ) (inFront : ℚ × ℚ → Bool)
    (retained : Option RetainedConflict) (c : ConflictCand) (tS tO : ℚ)
    (hS : c.tSelf = some tS) (hO : c.tOther = some tO)
    (hacc : conflict_accept horizon maxPET inFront retained c = true) :
    tS + tO ≤ horizon ∧
    (0 ≤ tS - tO ∧ tS - tO ≤ maxPET) ∧
    (∀ r, retained = some r → tS + tO < r.ttiSelf + r.ttiObject) ∧
    inFront c.pInt = true := by
  unfold conflict_accept at hacc
  rw [hS, hO] at hacc
  simp only [Bool.and_eq_true, decide_eq_true_eq] at hacc
  obtain ⟨⟨⟨⟨h1, h2⟩, h3⟩, h4⟩, h5⟩ := hacc
  refine ⟨h1, ⟨h2, h3⟩, ?_, h5⟩
  intro r hr
  rw [hr] at h4
  simpa using h4

/-- C5 witness: a concrete accepted conflict candidate (no retained
conflict, times 4 s and 3 s, point in front). -/
theorem conflict_accept_only_if_witness :
    (4:ℚ) + 3 ≤ DRIVER_MAX_DISTANCE_FOR_YIELDING_MODE ∧
    (0 ≤ (4:ℚ) - 3 ∧ (4:ℚ) - 3 ≤ DRIVER_MAX_PET_FOR_BRAKING_WHEN_INTERSECTING) ∧
    (∀ r, (none : Option RetainedConflict) = some r → (4:ℚ) + 3 < r.ttiSelf + r.ttiObject) ∧
    (fun (_ : ℚ × ℚ) => true) (⟨1, some 4, some 3, (2, 2)⟩ : ConflictCand).pInt = true :=
  conflict_accept_only_if DRIVER_MAX_DISTANCE_FOR_YIELDING_MODE
    DRIVER_MAX_PET_FOR_BRAKING_WHEN_INTERSECTING (fun _ => true) none
    ⟨1, some 4, some 3, (2, 2)⟩ 4 3 rfl rfl
    (by
      unfold conflict_accept DRIVER_MAX_DISTANCE_FOR_YIELDING_MODE
        DRIVER_MAX_PET_FOR_BRAKING_WHEN_INTERSECTING
      norm_num)

/-- The driving modes of `Driver.DrivingMode` (driver.py, lines 43-48). -/
inductive DrivingMode
  | LaneFollowing
  | Turning
  | DeadEnd
  | Roaming
  | Undefined
deriving DecidableEq, Repr

/-- The speed modes of `Driver.SpeedMode` (driver.py, lines 50-56). -/
inductive SpeedMode
  | Unrestricted
  | Turning
  | Following
  | Yielding
  | Stopping
  | Undefined
deriving DecidableEq, Repr

/-- Per-tick driver state: the fields `driving_mode`, `speed_mode`,
`next_lane` and the retained conflict of a `Driver` individual. -/
structure DriverState where
  drivingMode : DrivingMode
  speedMode : SpeedMode
  nextLane : Option Lane
  retained : Option RetainedConflict

/-- The world inputs consumed by `Driver.update_state` during one tick:
the overlap test with the retained next lane (`> 0.4` of the vehicle
footprint), the current lane, the end-of-lane test, the successor lanes of
the current lane, the seeded choice function, whether the driver drives a
vehicle, the fresh conflict feed, the in-front test, the lead-vehicle
lookup and the road-infrastructure overlap test. -/
structure DriverEnv where
  turningOverlapExceeds : Bool
  curLane : Option Lane
  approachesEndOfLane : Bool
  successors : List Lane
  laneChoice : List Lane → Option Lane
  drivesNonempty : Bool
  candidates : List ConflictCand
  inFront : ℚ × ℚ → Bool
  hasLead : Bool
  intersectsRoadInfra : Bool

/-- The driving-mode part of `Driver.update_state` (driver.py, lines
192-219), returning the new driving mode and the new retained next lane.
Fields of the next-tick individual that the source does not assign keep
the `None` that `Driver.__init__` gave them, hence the `none` results. -/
def driver_new_driving_mode (st : DriverState) (env : DriverEnv) :
    DrivingMode × Option Lane :=
  if st.drivingMode = DrivingMode.Turning then
    if st.nextLane ≠ none ∧ env.turningOverlapExceeds = true
    then (DrivingMode.LaneFollowing, none)
    else (DrivingMode.Turning, st.nextLane)
  else if env.curLane = none then (DrivingMode.Roaming, none)
  else if st.drivingMode = DrivingMode.LaneFollowing ∨ st.drivingMode = DrivingMode.DeadEnd then
    if env.approachesEndOfLane = true then
      match get_next_lane st.nextLane env.successors env.laneChoice with
      | some l => (DrivingMode.Turning, some l)
      | none => (DrivingMode.DeadEnd, none)
    else (DrivingMode.LaneFollowing, none)
  else (DrivingMode.LaneFollowing, none)

/-- The speed-mode priority of `Driver.update_state` (driver.py, lines
241-250): `Following` over `Yielding` over `Stopping` over
`Unrestricted`. -/
def driver_new_speed_mode (following yielding stopping : Bool) : SpeedMode :=
  if following = true then SpeedMode.Following
  else if yielding = true then SpeedMode.Yielding
  else if stopping = true then SpeedMode.Stopping
  else SpeedMode.Unrestricted

/-- Embedding of `Driver.update_state` (driver.py, lines 185-250):
driving-mode update, conflict retention (the retained conflict survives
only while its object still appears in the fresh conflict feed), and
speed-mode selection (`stopping` reads the just-written driving mode). -/
def driver_update_state (st : DriverState) (env : DriverEnv) : DriverState :=
  let dmnl := driver_new_driving_mode st env
  let int := get_intersecting_object DRIVER_MAX_DISTANCE_FOR_YIELDING_MODE
    DRIVER_MAX_PET_FOR_BRAKING_WHEN_INTERSECTING env.inFront env.drivesNonempty
    st.retained env.candidates
  let stillValid := match int with
    | some r => env.candidates.any (fun c => c.other = r.obj)
    | none => false
  let retained2 := if stillValid = true then int else none
  let stopping := dmnl.1 = DrivingMode.DeadEnd ∨ env.intersectsRoadInfra = false
  let sm := driver_new_speed_mode env.hasLead int.isSome (decide stopping)
  ⟨dmnl.1, sm, dmnl.2, retained2⟩

/-- The mode dispatch of `Driver.get_target` (driver.py, lines 99-116):
when the agent does not intersect any road infrastructure no mode is
consulted; otherwise an unhandled (i.e. `Undefined`) driving mode raises. -/
inductive TargetKind
  | noRoad
  | followLane
  | nextLane
  | endOfLane
  | roaming
deriving DecidableEq, Repr

/-- The speed computations selected by `Driver.get_target_speed`
(driver.py, lines 147-171). -/
inductive SpeedKind
  | unrestricted
  | following
  | yielding
  | stopping
deriving DecidableEq, Repr

/-- Embedding of the dispatch structure of `Driver.get_target` (driver.py,
lines 99-116). -/
def driver_get_target_dispatch (intersectsRoadInfra : Bool) (dm : DrivingMode) :
    Except String TargetKind :=
  if intersectsRoadInfra = false then Except.ok TargetKind.noRoad
  else if dm = DrivingMode.LaneFollowing then Except.ok TargetKind.followLane
  else if dm = DrivingMode.Turning then Except.ok TargetKind.nextLane
  else if dm = DrivingMode.DeadEnd then Except.ok TargetKind.endOfLane
  else if dm = DrivingMode.Roaming then Except.ok TargetKind.roaming
  else Except.error "is in undefined driving mode."

/-- Embedding of the dispatch structure of `Driver.get_target_speed`
(driver.py, lines 147-171); note the source's `else` branch also raises
for `SpeedMode.Turning`, which `update_state` never writes. -/
def driver_get_target_speed_dispatch (sm : SpeedMode) : Except String SpeedKind :=
  if sm = SpeedMode.Unrestricted then Except.ok SpeedKind.unrestricted
  else if sm = SpeedMode.Following then Except.ok SpeedKind.following
  else if sm = SpeedMode.Yielding then Except.ok SpeedKind.yielding
  else if sm = SpeedMode.Stopping then Except.ok SpeedKind.stopping
  else Except.error "is in undefined speed mode."

theorem driver_new_driving_mode_ne_undefined (st : DriverState) (env : DriverEnv) :
    (driver_new_driving_mode st env).1 ≠ DrivingMode.Undefined := by
  unfold driver_new_driving_mode
  split_ifs <;> try simp
  cases get_next_lane st.nextLane env.successors env.laneChoice <;> simp

theorem driver_new_speed_mode_ok (f y s : Bool) :
    driver_new_speed_mode f y s ≠ SpeedMode.Undefined ∧
    (driver_get_target_speed_dispatch (driver_new_speed_mode f y s)).isOk = true := by
  cases f <;> cases y <;> cases s <;> decide

theorem driver_target_dispatch_ok (b : Bool) (dm : DrivingMode)
    (h : dm ≠ DrivingMode.Undefined) :
    (driver_get_target_dispatch b dm).isOk = true := by
  cases dm <;> cases b <;> first
    | decide
    | exact absurd rfl h

/-- C8: reading an `Undefined` driving mode on a road-infrastructure
overlap, or an `Undefined` speed mode, makes the target/target-speed
dispatch raise (`Except.error`) instead of defaulting; and
`driver_update_state` writes a driving mode and a speed mode different
from `Undefined` on every control path, so the dispatches on the freshly
written modes always succeed — the raising branches are unreachable. -/
theorem driver_undefined_modes_raise_and_unreachable
    (st : DriverState) (env : DriverEnv) (b : Bool) :
    (driver_update_state st env).drivingMode ≠ DrivingMode.Undefined ∧
    (driver_update_state st env).speedMode ≠ SpeedMode.Undefined ∧
    driver_get_target_dispatch true DrivingMode.Undefined =
      Except.error "is in undefined driving mode." ∧
    driver_get_target_speed_dispatch SpeedMode.Undefined =
      Except.error "is in undefined speed mode." ∧
    (driver_get_target_dispatch b (driver_update_state st env).drivingMode).isOk = true ∧
    (driver_get_target_speed_dispatch (driver_update_state st env).speedMode).isOk = true := by
  have hdm : (driver_update_state st env).drivingMode = (driver_new_driving_mode st env).1 := rfl
  refine ⟨?_, ?_, rfl, rfl, ?_, ?_⟩
  · rw [hdm]
    exact driver_new_driving_mode_ne_undefined st env
  · exact (driver_new_speed_mode_ok _ _ _).1
  · rw [hdm]
    exact driver_target_dispatch_ok b _ (driver_new_driving_mode_ne_undefined st env)
  · exact (driver_new_speed_mode_ok _ _ _).2

theorem sortLanesByStr_eq_of_perm (s1 s2 : List Lane) (h : s1.Perm s2)
    (hn : (s1.map Lane.name).Nodup) : sortLanesByStr s1 = sortLanesByStr s2 := by
  have hp : (sortLanesByStr s1).Perm (sortLanesByStr s2) :=
    (List.perm_insertionSort laneLe s1).trans (h.trans (List.perm_insertionSort laneLe s2).symm)
  have hs1 : List.Sorted laneLe (sortLanesByStr s1) := List.sorted_insertionSort laneLe s1
  have hs2 : List.Sorted laneLe (sortLanesByStr s2) := List.sorted_insertionSort laneLe s2
  have hne : s1.Pairwise (fun a b : Lane => a.name ≠ b.name) := List.pairwise_map.mp hn
  have hsymm : ∀ {x y : Lane}, x.name ≠ y.name → y.name ≠ x.name :=
    fun h1 h2 => h1 h2.symm
  have hne1 : (sortLanesByStr s1).Pairwise (fun a b : Lane => a.name ≠ b.name) :=
    ((List.perm_insertionSort laneLe s1).pairwise_iff hsymm).mpr hne
  have hne2 : (sortLanesByStr s2).Pairwise (fun a b : Lane => a.name ≠ b.name) :=
    ((List.perm_insertionSort laneLe s2).pairwise_iff hsymm).mpr
      ((h.pairwise_iff hsymm).mp hne)
  have hst1 : List.Sorted laneLt (sortLanesByStr s1) :=
    List.Pairwise.imp₂ (fun _ _ hle hnn => lt_of_le_of_ne hle hnn) hs1 hne1
  have hst2 : List.Sorted laneLt (sortLanesByStr s2) :=
    List.Pairwise.imp₂ (fun _ _ hle hnn => lt_of_le_of_ne hle hnn) hs2 hne2
  exact List.eq_of_perm_of_sorted hp hst1 hst2

/-- Embedding of `Dynamical_Object.simulate` (dynamical_object.py, lines
81-108) for an agent driving no vehicle (so `update_position` is invoked
with no driven geometry) and with a polygonal footprint: when the previous
speed exceeds
`_RELEVANT_LOWEST_SPEED` and the yaw-rate command (the result of
`_get_new_yaw_rate`, a geometry computation over the target point) is not
`None`, write it; write the acceleration command from
`_get_new_acceleration`; then integrate speed, yaw and position in that
order.  The final match mirrors the source's guard structure: with an
undefined previous yaw, `update_yaw` leaves the new yaw untouched and the
position update is skipped for the reachable states (whose new yaw mirrors
the previous one), which the `none` branch reflects. -/
def simulate (centroidOf : List (ℚ × ℚ) → ℚ × ℚ) (cosd sind : ℚ → ℚ)
    (eps maxDecel maxAccel maxSpeed : ℚ) (targetSpeed : Option ℚ) (distance : ℚ)
    (yawRateCmd : Option ℚ) (prev new0 : DynState) (dt : ℚ) : DynState :=
  let new1 :=
    if prev.speed > eps then
      match yawRateCmd with
      | some yr => { new0 with yawRate := yr }
      | none => new0
    else new0
  let acc := get_new_acceleration maxDecel maxAccel maxSpeed prev.speed targetSpeed distance
  let new2 := { new1 with accel := acc }
  let new3 := update_speed eps prev.speed new2 dt
  let new4 := update_yaw eps prev.yaw new3 dt
  match prev.yaw with
  | some py => update_position centroidOf cosd sind eps py new4 none 0 true dt
  | none => new4

/-- C3: the embedded per-tick pipeline is a pure function of the
previous-tick snapshot, the tick duration and the state of the seeded
random source, so two runs on identical inputs coincide (for the
kinematic pipeline and for the driver's mode update); and the successor
lane choice draws from candidates sorted by their stable textual
identifier, so it does not depend on the enumeration order of the
successor set (for pairwise-distinct identifiers) — reproducibility under
a fixed seed. -/
theorem simulate_deterministic
    (centroidOf : List (ℚ × ℚ) → ℚ × ℚ) (cosd sind : ℚ → ℚ)
    (eps maxDecel maxAccel maxSpeed : ℚ) (targetSpeed : Option ℚ) (distance : ℚ)
    (yawRateCmd : Option ℚ) (prev new0 : DynState) (dt : ℚ)
    (st : DriverState) (env : DriverEnv) (nl : Option Lane)
    (choice : List Lane → Option Lane) (s1 s2 : List Lane)
    (hperm : s1.Perm s2) (hnodup : (s1.map Lane.name).Nodup) :
    simulate centroidOf cosd sind eps maxDecel maxAccel maxSpeed targetSpeed distance
        yawRateCmd prev new0 dt =
      simulate centroidOf cosd sind eps maxDecel maxAccel maxSpeed targetSpeed distance
        yawRateCmd prev new0 dt ∧
    driver_update_state st env = driver_update_state st env ∧
    get_next_lane nl s1 choice = get_next_lane nl s2 choice := by
  refine ⟨rfl, rfl, ?_⟩
  unfold get_next_lane
  by_cases hnl : nl = none ∧ s1 ≠ []
  · have hs2ne : s2 ≠ [] := by
      intro h2
      apply hnl.2
      have hlen := hperm.length_eq
      rw [h2] at hlen
      exact List.length_eq_zero.mp hlen
    rw [if_pos hnl, if_pos ⟨hnl.1, hs2ne⟩, sortLanesByStr_eq_of_perm s1 s2 hperm hnodup]
  · have hn2 : ¬ (nl = none ∧ s2 ≠ []) := by
      rintro ⟨h1, h2⟩
      apply hnl
      refine ⟨h1, ?_⟩
      intro h0
      apply h2
      have hlen := hperm.length_eq
      rw [h0] at hlen
      exact List.length_eq_zero.mp hlen.symm
    rw [if_neg hnl, if_neg hn2]

/-- C3 witness: the successor-lane choice agrees on two enumeration
orders of the same two-lane successor set, and the pipeline runs agree on
a concrete input. -/
theorem simulate_deterministic_witness :
    simulate (fun _ => (0, 0)) (fun _ => 1) (fun _ => 0) (1/100) (-1) 1 10 (some 5) 10
        (some 2) ⟨1, 0, 0, some 0, [(0, 0)], 1⟩ ⟨0, 0, 0, some 0, [(0, 0)], 1⟩ 1 =
      simulate (fun _ => (0, 0)) (fun _ => 1) (fun _ => 0) (1/100) (-1) 1 10 (some 5) 10
        (some 2) ⟨1, 0, 0, some 0, [(0, 0)], 1⟩ ⟨0, 0, 0, some 0, [(0, 0)], 1⟩ 1 ∧
    driver_update_state
        ⟨DrivingMode.LaneFollowing, SpeedMode.Unrestricted, none, none⟩
        ⟨false, none, false, [], fun l => l.head?, false, [], fun _ => true, false, true⟩ =
      driver_update_state
        ⟨DrivingMode.LaneFollowing, SpeedMode.Unrestricted, none, none⟩
        ⟨false, none, false, [], fun l => l.head?, false, [], fun _ => true, false, true⟩ ∧
    get_next_lane none [⟨"b"⟩, ⟨"a"⟩] (fun l => l.head?) =
      get_next_lane none [⟨"a"⟩, ⟨"b"⟩] (fun l => l.head?) :=
  simulate_deterministic (fun _ => (0, 0)) (fun _ => 1) (fun _ => 0) (1/100) (-1) 1 10
    (some 5) 10 (some 2) ⟨1, 0, 0, some 0, [(0, 0)], 1⟩ ⟨0, 0, 0, some 0, [(0, 0)], 1⟩ 1
    ⟨DrivingMode.LaneFollowing, SpeedMode.Unrestricted, none, none⟩
    ⟨false, none, false, [], fun l => l.head?, false, [], fun _ => true, false, true⟩
    none (fun l => l.head?) [⟨"b"⟩, ⟨"a"⟩] [⟨"a"⟩, ⟨"b"⟩]
    (by decide) (by decide)

/-- The walking modes of `Pedestrian.WalkingMode` (pedestrian.py, lines
52-56). -/
inductive WalkingMode
  | UnrestrictedWalking
  | WalkwayWalking
  | CrossingRoad
  | Stopping
deriving DecidableEq, Repr

/-- The speed modes of `Pedestrian.SpeedMode` (pedestrian.py, lines
58-61). -/
inductive PedSpeedMode
  | UnrestrictedWalking
  | Stopping
  | Yielding
deriving DecidableEq, Repr

/-- The per-tick world inputs consumed by the walking-mode part of
`Pedestrian.update_state` (pedestrian.py, lines 150-181): whether the
footprint reached the selected crossing target, proximity to a driveable
lane, the Bernoulli draw `random() < _CROSSING_ROAD_PROBABILITY`, whether
an intersecting road and a furthest far-side walkway are identifiable,
whether a walkway is intersected, crossing proximity, the end-of-walkway
test and the walkway-area test. -/
structure PedEnv where
  reachedCrossingTarget : Bool
  closeToDriveableLane : Bool
  drawSucceeds : Bool
  intersectingRoad : Bool
  farWalkway : Bool
  intersectingWalkway : Bool
  closeToCrossing : Bool
  reachedEndOfWalkway : Bool
  walkwayAreaBig : Bool
deriving DecidableEq, Repr

/-- Embedding of the walking-mode update of `Pedestrian.update_state`
(pedestrian.py, lines 150-181), branch for branch: keep crossing until the
target is reached; start crossing on a successful draw near a driveable
lane only when the current mode is neither `UnrestrictedWalking` nor
`Stopping` and road and far walkway are identifiable; stop at the end of a
walkway away from crossings; follow a sufficiently large walkway;
otherwise walk unrestricted. -/
def ped_next_walking_mode (m : WalkingMode) (e : PedEnv) : WalkingMode :=
  if m = WalkingMode.CrossingRoad ∧ e.reachedCrossingTarget = false then
    WalkingMode.CrossingRoad
  else if e.closeToDriveableLane = true ∧ e.drawSucceeds = true ∧
      m ≠ WalkingMode.UnrestrictedWalking ∧ m ≠ WalkingMode.Stopping ∧
      e.intersectingRoad = true ∧ e.farWalkway = true then
    WalkingMode.CrossingRoad
  else if e.intersectingWalkway = true ∧ e.closeToCrossing = false ∧
      e.reachedEndOfWalkway = true then
    WalkingMode.Stopping
  else if e.intersectingWalkway = true ∧ e.walkwayAreaBig = true then
    WalkingMode.WalkwayWalking
  else
    WalkingMode.UnrestrictedWalking

/-- The walking modes reached over a run of ticks, one entry per tick. -/
def ped_walk_trace (m : WalkingMode) : List PedEnv → List WalkingMode
  | [] => []
  | e :: es =>
    let m2 := ped_next_walking_mode m e
    m2 :: ped_walk_trace m2 es

theorem ped_next_walking_mode_ne_crossing (m : WalkingMode) (e : PedEnv)
    (h0 : m ≠ WalkingMode.CrossingRoad) (hfail : e.drawSucceeds = false) :
    ped_next_walking_mode m e ≠ WalkingMode.CrossingRoad := by
  unfold ped_next_walking_mode
  split_ifs with h1 h2
  · exact absurd h1.1 h0
  · rw [hfail] at h2
    simp at h2
  all_goals simp

theorem ped_no_crossing_of_draw_failures (envs : List PedEnv) :
    ∀ m0 : WalkingMode, m0 ≠ WalkingMode.CrossingRoad →
    (∀ e ∈ envs, e.drawSucceeds = false) →
    ∀ m2 ∈ ped_walk_trace m0 envs, m2 ≠ WalkingMode.CrossingRoad := by
  induction envs with
  | nil =>
    intro m0 _ _ m2 hmem
    simp [ped_walk_trace] at hmem
  | cons e2 es ih =>
    intro m0 h0 hfail m2 hmem
    have hm' : ped_next_walking_mode m0 e2 ≠ WalkingMode.CrossingRoad :=
      ped_next_walking_mode_ne_crossing m0 e2 h0 (hfail e2 (List.mem_cons_self e2 es))
    simp only [ped_walk_trace, List.mem_cons] at hmem
    rcases hmem with rfl | hmem2
    · exact hm'
    · exact ih (ped_next_walking_mode m0 e2) hm'
        (fun e3 he3 => hfail e3 (List.mem_cons_of_mem _ he3)) m2 hmem2

/-- C7 counterexample: a pedestrian in `UnrestrictedWalking` whose
Bernoulli draw succeeds near a driveable lane, with an identifiable
intersecting road and a usable far-side walkway, does not switch to
`CrossingRoad` (the source additionally requires the current mode to be
neither `UnrestrictedWalking` nor `Stopping`). -/
theorem ped_crossing_draw_counterexample :
    ped_next_walking_mode WalkingMode.UnrestrictedWalking
        ⟨false, true, true, true, true, false, false, false, false⟩ =
      WalkingMode.UnrestrictedWalking ∧
    WalkingMode.UnrestrictedWalking ≠ WalkingMode.CrossingRoad := by
  decide

/-- C7 (amended: starting to cross additionally requires the current
walking mode to be neither `UnrestrictedWalking` nor `Stopping`, as in the
spec's own mode-update rule 2): a pedestrian not in `CrossingRoad` whose
draw fails on every tick of a run never reaches `CrossingRoad` during that
run; and a tick whose draw succeeds near a driveable lane with an
identifiable road and far-side walkway switches a pedestrian in an
eligible mode to `CrossingRoad`. -/
theorem ped_crossing_mode_spec (m0 : WalkingMode) (envs : List PedEnv)
    (m : WalkingMode) (e : PedEnv)
    (h0 : m0 ≠ WalkingMode.CrossingRoad)
    (hfail : ∀ e2 ∈ envs, e2.drawSucceeds = false)
    (hm : m ≠ WalkingMode.CrossingRoad) (hm1 : m ≠ WalkingMode.UnrestrictedWalking)
    (hm2 : m ≠ WalkingMode.Stopping)
    (hc : e.closeToDriveableLane = true) (hd : e.drawSucceeds = true)
    (hr : e.intersectingRoad = true) (hw : e.farWalkway = true) :
    (∀ m2 ∈ ped_walk_trace m0 envs, m2 ≠ WalkingMode.CrossingRoad) ∧
    ped_next_walking_mode m e = WalkingMode.CrossingRoad := by
  constructor
  · exact ped_no_crossing_of_draw_failures envs m0 h0 hfail
  · unfold ped_next_walking_mode
    rw [if_neg (by rintro ⟨h1, _⟩; exact hm h1), if_pos ⟨hc, hd, hm1, hm2, hr, hw⟩]

/-- C7 witness: a two-tick failing run from `WalkwayWalking`, then a
successful draw in `WalkwayWalking`. -/
theorem ped_crossing_mode_spec_witness :
    (∀ m2 ∈ ped_walk_trace WalkingMode.WalkwayWalking
        [⟨false, true, false, true, true, true, false, false, true⟩,
         ⟨false, true, false, true, true, false, false, false, false⟩],
      m2 ≠ WalkingMode.CrossingRoad) ∧
    ped_next_walking_mode WalkingMode.WalkwayWalking
        ⟨false, true, true, true, true, true, false, false, true⟩ =
      WalkingMode.CrossingRoad :=
  ped_crossing_mode_spec WalkingMode.WalkwayWalking
    [⟨false, true, false, true, true, true, false, false, true⟩,
     ⟨false, true, false, true, true, false, false, false, false⟩]
    WalkingMode.WalkwayWalking
    ⟨false, true, true, true, true, true, false, false, true⟩
    (by decide) (by decide) (by decide) (by decide) (by decide)
    rfl rfl rfl rfl

/-- Pedestrian class constant `_MAX_DISTANCE_FOR_YIELDING_MODE`
(pedestrian.py, line 44). -/
def PED_MAX_DISTANCE_FOR_YIELDING_MODE : ℚ := 10

/-- Pedestrian class constant `_MAX_PET_FOR_YIELDING` (pedestrian.py,
line 45). -/
def PED_MAX_PET_FOR_YIELDING : ℚ := 4

/-- Pedestrian class constant `_YIELD_FOR_TYPES` (pedestrian.py, line
49). -/
def YIELD_FOR_TYPES : List String :=
  ["l4_core.Pedestrian", "l4_de.Bicycle", "l1_core.L1_Entity", "l1_core.L2_Entity"]

/-- Pedestrian class constant `_YIELD_FOR_NONMOVING_TYPES` (pedestrian.py,
line 50). -/
def YIELD_FOR_NONMOVING_TYPES : List String := ["l4_core.Vehicle"]

/-- The data of another agent consulted by the pedestrian yield check:
whether `l4_core.Pedestrian` is among its direct types (`obj.is_a`), the
textual names of its transitive types (`str(x) for x in INDIRECT_is_a`),
and its speed (`None` possible, as it comes from the ontology). -/
structure PedObj where
  isPedestrianDirect : Bool
  indirectTypes : List String
  speed : Option ℚ
deriving DecidableEq, Repr

/-- A conflict candidate as consumed by
`Pedestrian._get_yielding_intersection_point`; the pedestrian loop uses
`t_self + t_other` without a `None` check, so the times are plain. -/
structure PedCand where
  obj : PedObj
  tSelf : ℚ
  tOther : ℚ
  pInt : ℚ × ℚ
deriving DecidableEq, Repr

/-- The candidate test of `Pedestrian._get_yielding_intersection_point`
(pedestrian.py, lines 328-334), with Python's operator precedence kept
exactly as written: the middle disjunct
`len(NONMOVING ∩ types) > 0 and has_speed is None or has_speed == 0`
parses as `(len(NONMOVING ∩ types) > 0 and has_speed is None) or
has_speed == 0`. -/
def ped_yield_cond (c : PedCand) : Bool :=
  decide (c.tSelf + c.tOther ≤ PED_MAX_DISTANCE_FOR_YIELDING_MODE) &&
  ((!c.obj.isPedestrianDirect && decide (0 ≤ c.tSelf - c.tOther) &&
      decide (c.tSelf - c.tOther ≤ PED_MAX_PET_FOR_YIELDING)) ||
   ((c.obj.indirectTypes.any (fun t => YIELD_FOR_NONMOVING_TYPES.contains t) &&
       decide (c.obj.speed = none)) ||
    decide (c.obj.speed = some 0)) ||
   (c.obj.indirectTypes.any (fun t => YIELD_FOR_TYPES.contains t) &&
      decide (|c.tSelf - c.tOther| ≤ PED_MAX_PET_FOR_YIELDING)))

/-- The first candidate (in the proximity-sorted feed) passing
`ped_yield_cond` yields its predicted intersection point
(pedestrian.py, lines 327-337). -/
def ped_first_yield : List PedCand → Option (ℚ × ℚ)
  | [] => none
  | c :: cs => if ped_yield_cond c then some c.pInt else ped_first_yield cs

/-- The speed-mode forcing of `Pedestrian.update_state` (pedestrian.py,
lines 183-184): a returned intersection point forces `Yielding`. -/
def ped_forced_speed_mode (cands : List PedCand) (sm : PedSpeedMode) : PedSpeedMode :=
  if (ped_first_yield cands).isSome then PedSpeedMode.Yielding else sm

/-- Clause (a) of the claim, following the spec's words: the other agent
is not a pedestrian and its post-encroachment time lies in
`[0, maxPET]`. -/
def ped_spec_clause_a (c : PedCand) : Prop :=
  c.obj.isPedestrianDirect = false ∧ 0 ≤ c.tSelf - c.tOther ∧
  c.tSelf - c.tOther ≤ PED_MAX_PET_FOR_YIELDING

/-- Clause (b) of the claim, following the spec's words: the other agent
belongs to a "yield even if stationary" category and is currently at
rest. -/
def ped_spec_clause_b (c : PedCand) : Prop :=
  (∃ t ∈ c.obj.indirectTypes, t ∈ YIELD_FOR_NONMOVING_TYPES) ∧
  (c.obj.speed = none ∨ c.obj.speed = some 0)

/-- Clause (c) of the claim, following the spec's words: the other agent
belongs to a general "yield for" category and `|PET| ≤ maxPET`. -/
def ped_spec_clause_c (c : PedCand) : Prop :=
  (∃ t ∈ c.obj.indirectTypes, t ∈ YIELD_FOR_TYPES) ∧
  |c.tSelf - c.tOther| ≤ PED_MAX_PET_FOR_YIELDING

/-- The C6 failing input: another pedestrian at rest (speed exactly 0)
with `t_self = 8`, `t_other = 2`, so the candidate is within the yielding
horizon (`8 + 2 ≤ 10`) but `PET = 6` exceeds `maxPET = 4`. -/
def pedBugCand : PedCand := ⟨⟨true, ["l4_core.Pedestrian"], some 0⟩, 8, 2, (1, 1)⟩

/-- C6: at the failing input, the source's candidate test accepts (and
`update_state` forces `Yielding`) although none of the claim's three
clauses holds — Python parses `A and B or C` as `(A and B) or C`, so
`has_speed == 0` alone satisfies the middle disjunct for any agent,
regardless of the "yield even if stationary" category. -/
theorem ped_yield_precedence_code_bug :
    ped_yield_cond pedBugCand = true ∧
    ped_forced_speed_mode [pedBugCand] PedSpeedMode.UnrestrictedWalking =
      PedSpeedMode.Yielding ∧
    ¬ ped_spec_clause_a pedBugCand ∧
    ¬ ped_spec_clause_b pedBugCand ∧
    ¬ ped_spec_clause_c pedBugCand := by
  have hcond : ped_yield_cond pedBugCand = true := by
    unfold ped_yield_cond pedBugCand PED_MAX_DISTANCE_FOR_YIELDING_MODE
    norm_num
  refine ⟨hcond, ?_, ?_, ?_, ?_⟩
  · unfold ped_forced_speed_mode ped_first_yield
    rw [hcond]
    rfl
  · unfold ped_spec_clause_a pedBugCand
    norm_num
  · unfold ped_spec_clause_b pedBugCand YIELD_FOR_NONMOVING_TYPES
    norm_num
    decide
  · unfold ped_spec_clause_c pedBugCand YIELD_FOR_TYPES PED_MAX_PET_FOR_YIELDING
    norm_num
